import Mathlib

/-!
Shallow embedding of the ai-feed ranking pipeline
(src/ranker.py, src/embeddings.py, src/groq_client.py, src/user_profile.py,
src/db.py, src/run_poll.py, src/config.py), together with proofs settling
the frozen claims about it.

Modelling conventions: Python floats are modelled as real numbers, retry
delays as rationals, LLM scores as integers.  The external LLM API is an
oracle mapping attempt numbers (1-based) to either an exception kind or a
response body.  SQLite tables are lists of row structures; single-statement
writes are pure functions on those lists.
-/

namespace AiFeed

/-! ### Embedding service (src/embeddings.py) -/

/-- Epsilon added to the cosine denominator (src/embeddings.py line 28). -/
noncomputable def simEps : ℝ := 1e-9

/-- Dot product of two vectors, `np.dot(a, b)`. -/
def dot (a b : List ℝ) : ℝ := (List.zipWith (fun x y => x * y) a b).sum

/-- Sum of squares of the entries of a vector. -/
def sqNorm (a : List ℝ) : ℝ := (a.map (fun x => x * x)).sum

/-- Euclidean norm, `np.linalg.norm(a)`. -/
noncomputable def norm2 (a : List ℝ) : ℝ := Real.sqrt (sqNorm a)

/-- `cosine_similarity` from src/embeddings.py lines 26-28:
`np.dot(a, b) / (np.linalg.norm(a) * np.linalg.norm(b) + 1e-9)`. -/
noncomputable def cosine_similarity (a b : List ℝ) : ℝ :=
  dot a b / (norm2 a * norm2 b + simEps)

/-- A row returned by `get_liked_items` / `get_disliked_items`
(src/db.py lines 203-230): id, title, summary, embedding, llm_topics.
`embedding` is `none` when the stored column is NULL/empty, `llm_topics`
is the parsed topic list when present and parseable. -/
structure FeedbackItem where
  id : String
  title : Option String
  summary : Option String
  embedding : Option (List ℝ)
  llm_topics : Option (List String)

/-- Python `max` over a nonempty list (callers guard against `[]`;
the `[]` case returns 0 and is never reached from the source paths). -/
noncomputable def listMax : List ℝ → ℝ
  | [] => 0
  | x :: xs => xs.foldl max x

/-- `max_similarity_to_liked` from src/embeddings.py lines 41-53: 0.0 when
there are no liked items, otherwise the max cosine similarity over the
liked items that have an embedding (0.0 if none has one). -/
noncomputable def max_similarity_to_liked
    (candidate_emb : List ℝ) (liked_items : List FeedbackItem) : ℝ :=
  match liked_items with
  | [] => 0
  | _ :: _ =>
    listMax ((liked_items.filterMap (fun i => i.embedding)).map
      (fun e => cosine_similarity candidate_emb e))

/-- Modelled from the spec: `avg_similarity_to_liked` is imported by
src/ranker.py (lines 14 and 111) from the embeddings module but is missing
from the source under src/.  The spec (section 9) describes the later
variant as a secondary "average similarity" blend (`0.7 x max + 0.3 x avg`),
so the missing function is modelled as the mean of the cosine similarities
to the liked articles that have embeddings, 0.0 when there are none,
mirroring the shape of `max_similarity_to_liked`. -/
noncomputable def avg_similarity_to_liked
    (candidate_emb : List ℝ) (liked_items : List FeedbackItem) : ℝ :=
  match liked_items with
  | [] => 0
  | _ :: _ =>
    match (liked_items.filterMap (fun i => i.embedding)).map
        (fun e => cosine_similarity candidate_emb e) with
    | [] => 0
    | s :: ss => (s :: ss).sum / ((s :: ss).length : ℝ)

/-- `min_similarity_to_disliked` from src/embeddings.py lines 56-68.
Despite its name the source returns `max(scores)`: the similarity to the
single closest (most similar) disliked article. -/
noncomputable def min_similarity_to_disliked
    (candidate_emb : List ℝ) (disliked_items : List FeedbackItem) : ℝ :=
  match disliked_items with
  | [] => 0
  | _ :: _ =>
    listMax ((disliked_items.filterMap (fun i => i.embedding)).map
      (fun e => cosine_similarity candidate_emb e))

/-- Insert into a descending-sorted list of reals (helper for Python
`sorted(xs, reverse=True)`). -/
noncomputable def insertDescR (x : ℝ) : List ℝ → List ℝ
  | [] => [x]
  | y :: ys => if y < x then x :: y :: ys else y :: insertDescR x ys

/-- Python `sorted(xs, reverse=True)` on reals. -/
noncomputable def sortDescR (l : List ℝ) : List ℝ := l.foldr insertDescR []

/-- `np.mean(sorted(tracked_sims, reverse=True)[:5])` from
src/ranker.py line 119 (callers guard against the empty list). -/
noncomputable def meanTopFive (l : List ℝ) : ℝ :=
  let top := (sortDescR l).take 5
  top.sum / (top.length : ℝ)

/-! ### Configuration (src/config.py) -/

/-- `EMBEDDING_SIMILARITY_THRESHOLD` from src/config.py line 24. -/
noncomputable def EMBEDDING_SIMILARITY_THRESHOLD : ℝ := 0.65

/-- `LLM_SCORE_THRESHOLD` from src/config.py line 25. -/
def LLM_SCORE_THRESHOLD : Int := 65

/-- `COLD_START_KEYWORDS` from src/config.py lines 30-34. -/
def COLD_START_KEYWORDS : List String :=
  ["vllm", "llm", "inference", "quantization", "kv cache",
   "speculative decoding", "rag", "agents", "fine-tuning",
   "benchmark", "transformer", "embeddings", "serving"]

/-! ### Candidate articles and keyword gates (src/ranker.py) -/

/-- The fields of a candidate article dict that the ranker reads
(`item["title"]`, `item.get("text", "")`, `item.get("source", "")`,
`item["id"]`); absent keys default to the empty string. -/
structure Item where
  id : String
  url : String
  title : String
  text : String
  source : String
deriving DecidableEq

/-- Decide whether `needle` is a leading run of `hay`. -/
def leadsWith : List Char → List Char → Bool
  | _, [] => true
  | [], _ :: _ => false
  | h :: hs, n :: ns => h == n && leadsWith hs ns

/-- Python substring containment `needle in hay` on character lists. -/
def containsSub : List Char → List Char → Bool
  | [], needle => needle.isEmpty
  | h :: hs, needle => leadsWith (h :: hs) needle || containsSub hs needle

def spaceStr : String := " "

/-- Python `str.lower()`, as the character list it acts on. -/
def lowerChars (s : String) : List Char := s.toList.map Char.toLower

/-- `_cold_start_matches` from src/ranker.py lines 29-31: the lower-cased
title+text contains at least one configured cold-start keyword. -/
def cold_start_matches (item : Item) : Bool :=
  let text := lowerChars (item.title ++ spaceStr ++ item.text)
  COLD_START_KEYWORDS.any (fun kw => containsSub text kw.toList)

/-- `_topic_keyword_matches` from src/ranker.py lines 34-45.  Computed by
`score_item` but, with the similarity gate commented out, never consulted. -/
def topic_keyword_matches (item : Item) (top_topics : List String) : Bool :=
  match top_topics with
  | [] => false
  | _ :: _ =>
    let text := lowerChars (item.title ++ spaceStr ++ item.text)
    top_topics.any (fun topic => containsSub text (lowerChars topic))

/-! ### Preference profile (src/user_profile.py) -/

structure Profile where
  liked_titles : List String
  disliked_titles : List String
  top_topics : List String
  tracked_embeddings : List (List ℝ)
  has_history : Bool

/-- Number of occurrences of `t` in `l` (Python `Counter` count). -/
def countOcc (t : String) (l : List String) : Nat :=
  (l.filter (fun x => x == t)).length

/-- First-occurrence deduplication (Python dict insertion order). -/
def dedupKeepFirst (l : List String) : List String :=
  l.foldl (fun acc t => if acc.contains t then acc else acc ++ [t]) []

/-- Stable insert for a descending sort by occurrence count. -/
def insertByCountDesc (cnt : String → Nat) (x : String) :
    List String → List String
  | [] => [x]
  | y :: ys => if cnt x < cnt y then y :: insertByCountDesc cnt x ys else x :: y :: ys

/-- `Counter(l).most_common(n)` keys: distinct elements ordered by count
descending, ties in first-encountered order. -/
def mostCommon (l : List String) (n : Nat) : List String :=
  ((dedupKeepFirst l).foldr (insertByCountDesc (fun t => countOcc t l)) []).take n

/-- Python truthiness filter `if i.get("title")`. -/
def titleOf (i : FeedbackItem) : Option String :=
  match i.title with
  | none => none
  | some t => if t = "" then none else some t

/-- `build_preference_profile` from src/user_profile.py lines 6-30, with
the three database fetches supplied as arguments: `liked` is the result of
`get_liked_items(user_id, limit=30)`, `disliked` of
`get_disliked_items(user_id, limit=20)`, `tracked` of
`get_tracked_embeddings(user_id)`. -/
def build_preference_profile
    (liked disliked : List FeedbackItem) (tracked : List (List ℝ)) : Profile :=
  let liked_titles := liked.filterMap titleOf
  let disliked_titles := disliked.filterMap titleOf
  let liked_topics := liked.foldl (fun acc i => acc ++ i.llm_topics.getD []) []
  { liked_titles := liked_titles
    disliked_titles := disliked_titles
    top_topics := mostCommon liked_topics 15
    tracked_embeddings := tracked
    has_history := decide (5 ≤ liked.length) || decide (0 < tracked.length) }

def topicsLabel : String := "Topics I like: "
def commaSep : String := ", "
def likedHeader : String := "Recent articles I liked:"
def dislikedHeader : String := "Recent articles I did NOT like:"
def plusMark : String := "  + "
def minusMark : String := "  - "
def noHistoryText : String := "No preference history yet."
def nlStr : String := "\n"

/-- `profile_to_text` from src/user_profile.py lines 33-45. -/
def profile_to_text (p : Profile) : String :=
  let topicLines : List String :=
    match p.top_topics with
    | [] => []
    | t :: ts => [topicsLabel ++ String.intercalate commaSep (t :: ts)]
  let likedLines : List String :=
    match p.liked_titles with
    | [] => []
    | l => likedHeader :: (l.take 10).map (fun t => plusMark ++ t)
  let dislikedLines : List String :=
    match p.disliked_titles with
    | [] => []
    | l => dislikedHeader :: (l.take 10).map (fun t => minusMark ++ t)
  match topicLines ++ likedLines ++ dislikedLines with
  | [] => noHistoryText
  | l => String.intercalate nlStr l

/-! ### LLM judge client (src/groq_client.py, src/ranker.py `_llm_judge`) -/

/-- The closed kinds of exception the Groq client can raise during a chat
call.  The first four are the members of `_RETRYABLE`
(src/groq_client.py line 19); `badRequest` stands for any other
(non-retryable) API exception, which the retry loop does not catch. -/
inductive ApiError where
  | rateLimit
  | connection
  | timeout
  | server
  | badRequest
deriving DecidableEq

/-- Membership in `_RETRYABLE` (src/groq_client.py line 19). -/
def retryable : ApiError → Bool
  | .rateLimit => true
  | .connection => true
  | .timeout => true
  | .server => true
  | .badRequest => false

/-- The parsed JSON shape `_llm_judge` expects:
`{"score": int, "topics": [..], "reason": ".."}`. -/
structure JudgeResult where
  score : Int
  topics : List String
  reason : String
deriving DecidableEq

/-- The body of a successful API response, as seen by the
`json.loads` call in `_llm_judge` (src/ranker.py line 85): either it
parses into the expected shape or it is malformed/empty/truncated. -/
inductive LlmResponse where
  | parseable (r : JudgeResult)
  | malformed
deriving DecidableEq

/-- `_MAX_RETRIES` (src/groq_client.py line 20). -/
def MAX_RETRIES : Nat := 5

/-- `_BASE_DELAY` in seconds (src/groq_client.py line 21). -/
def BASE_DELAY : ℚ := 2

instance {ε α : Type} [DecidableEq ε] [DecidableEq α] :
    DecidableEq (Except ε α) := fun x y =>
  match x, y with
  | .ok a, .ok b =>
    if h : a = b then isTrue (by rw [h]) else isFalse (by simp [h])
  | .ok _, .error _ => isFalse (by simp)
  | .error _, .ok _ => isFalse (by simp)
  | .error a, .error b =>
    if h : a = b then isTrue (by rw [h]) else isFalse (by simp [h])

/-- What one call of `chat_with_retry` did: its outcome (a response body
or the re-raised exception), the number of the attempt it finished on, and
the sequence of back-off sleeps it performed, in seconds. -/
structure RetryResult where
  outcome : Except ApiError LlmResponse
  attempts : Nat
  sleeps : List ℚ
deriving DecidableEq

/-- The loop body of `chat_with_retry` (src/groq_client.py lines 48-64).
`oracle k` is the outcome of the k-th API call (1-based); the first
argument counts the attempts still allowed (the `0` case is unreachable
from the entry point).  On a retryable error with no attempt left the
error is re-raised; otherwise the loop sleeps
`delay * (2 ** (attempt - 1))` and retries; a non-retryable error
propagates immediately. -/
def chat_attempt_loop (oracle : Nat → Except ApiError LlmResponse) :
    Nat → Nat → List ℚ → RetryResult
  | 0, attempt, sleeps => ⟨.error .timeout, attempt, sleeps⟩
  | remaining + 1, attempt, sleeps =>
    match oracle attempt with
    | .ok r => ⟨.ok r, attempt, sleeps⟩
    | .error e =>
      if retryable e then
        if remaining = 0 then ⟨.error e, attempt, sleeps⟩
        else chat_attempt_loop oracle remaining (attempt + 1)
          (sleeps ++ [BASE_DELAY * 2 ^ (attempt - 1)])
      else ⟨.error e, attempt, sleeps⟩

/-- `chat_with_retry` (src/groq_client.py lines 41-64): up to
`_MAX_RETRIES` attempts starting at attempt 1 with no sleep performed yet. -/
def chat_with_retry (oracle : Nat → Except ApiError LlmResponse) : RetryResult :=
  chat_attempt_loop oracle MAX_RETRIES 1 []

/-- `_llm_judge` (src/ranker.py lines 48-88): calls `chat_with_retry` and
parses the response.  A malformed body raises `json.JSONDecodeError` /
`AttributeError` / `IndexError`, which the `except` clause turns into
`None`; a `RateLimitError` escaping the retry loop is also caught and
turned into `None`; every other API exception propagates to the caller. -/
def llm_judge (oracle : Nat → Except ApiError LlmResponse) :
    Except ApiError (Option JudgeResult) :=
  match (chat_with_retry oracle).outcome with
  | .ok (.parseable r) => .ok (some r)
  | .ok .malformed => .ok none
  | .error .rateLimit => .ok none
  | .error e => .error e

/-! ### The ranking pipeline (src/ranker.py `score_item`) -/

/-- The pair `(sim_liked_max, sim_liked_avg)` after the tracked-article
boost, src/ranker.py lines 110-119: when tracked embeddings exist, the max
is joined with the best tracked similarity and the average with the mean
of the top five tracked similarities. -/
noncomputable def sim_liked_parts (emb : List ℝ) (liked : List FeedbackItem)
    (tracked : List (List ℝ)) : ℝ × ℝ :=
  let m := max_similarity_to_liked emb liked
  let a := avg_similarity_to_liked emb liked
  match tracked with
  | [] => (m, a)
  | t :: ts =>
    let tracked_sims := (t :: ts).map (fun te => cosine_similarity emb te)
    (max m (listMax tracked_sims), max a (meanTopFive tracked_sims))

/-- `adj_score` as computed in the warm-start branch, src/ranker.py
lines 110-126: blend `0.7 * max + 0.3 * avg`, minus half the similarity
to the closest disliked article. -/
noncomputable def adjusted_score (emb : List ℝ) (liked : List FeedbackItem)
    (tracked : List (List ℝ)) (disliked : List FeedbackItem) : ℝ :=
  let p := sim_liked_parts emb liked tracked
  0.7 * p.1 + 0.3 * p.2 - 0.5 * min_similarity_to_disliked emb disliked

/-- The fixed profile sentence used for cold-start users
(src/ranker.py line 102). -/
def coldStartProfileText : String :=
  "No history yet. Focus on AI/ML research, LLM serving, inference optimization."

/-- Observable behaviour of one `score_item(item, user_id)` call:
whether the LLM judge was invoked, the profile text passed to it, the
`adj_score` computed in the warm branch, the arguments of the
`save_user_score` call when one happened, and the returned value —
`.error e` when an uncaught API exception escaped, `.ok none` for `return
None`, `.ok (some (item, r))` for the accepted `{**item, **result}`. -/
structure ScoreOutcome where
  llmCalled : Bool
  profileText : Option String
  adjusted : Option ℝ
  saved : Option JudgeResult
  result : Except ApiError (Option (Item × JudgeResult))

/-- `score_item` from src/ranker.py lines 91-158.  The database reads are
supplied as arguments: `likedAll`/`dislikedAll` stand for the feedback
join ordered by recency descending, of which `build_preference_profile`
reads the first 30/20 rows and the ranker itself the first 50 of each
(the `get_liked_items` default limit); `tracked` is
`get_tracked_embeddings(user_id)`; `emb` is the vector `embed_item`
returned for this item; `oracle` drives the judge API call.  The
`store_embedding` and `update_item_summary` writes touch tables no claim
reads and are not recorded.  Note the embedding-similarity gate of the
spec is commented out in the source (lines 139-150): `adj_score` and the
topic fallback are computed, logged and dropped, and the warm branch
always proceeds to the LLM judge. -/
noncomputable def score_item (item : Item) (emb : List ℝ)
    (likedAll dislikedAll : List FeedbackItem) (tracked : List (List ℝ))
    (oracle : Nat → Except ApiError LlmResponse) : ScoreOutcome :=
  let profile := build_preference_profile (likedAll.take 30)
    (dislikedAll.take 20) tracked
  let liked := likedAll.take 50
  let disliked := dislikedAll.take 50
  if profile.has_history = false then
    if cold_start_matches item = false then
      ⟨false, none, none, none, .ok none⟩
    else
      match llm_judge oracle with
      | .error e => ⟨true, some coldStartProfileText, none, none, .error e⟩
      | .ok none => ⟨true, some coldStartProfileText, none, none, .ok none⟩
      | .ok (some r) =>
        if r.score < LLM_SCORE_THRESHOLD then
          ⟨true, some coldStartProfileText, none, none, .ok none⟩
        else
          ⟨true, some coldStartProfileText, none, some r, .ok (some (item, r))⟩
  else
    let adj := adjusted_score emb liked tracked disliked
    let _topic_match := topic_keyword_matches item profile.top_topics
    let pt := profile_to_text profile
    match llm_judge oracle with
    | .error e => ⟨true, some pt, some adj, none, .error e⟩
    | .ok none => ⟨true, some pt, some adj, none, .ok none⟩
    | .ok (some r) =>
      if r.score < LLM_SCORE_THRESHOLD then
        ⟨true, some pt, some adj, none, .ok none⟩
      else
        ⟨true, some pt, some adj, some r, .ok (some (item, r))⟩

/-! ### Per-user score store (src/db.py) -/

/-- A row of the `user_item_scores` table (src/db.py lines 45-56); the
`notified` column has `DEFAULT 0`. -/
structure ScoreRow where
  user_id : Int
  item_id : String
  llm_score : ℚ
  llm_topics : List String
  llm_reason : String
  notified : Bool
deriving DecidableEq

/-- The `UNIQUE(user_id, item_id)` key of a score row. -/
def keyOf (r : ScoreRow) : Int × String := (r.user_id, r.item_id)

def sameKey (u : Int) (it : String) (r : ScoreRow) : Bool :=
  r.user_id == u && r.item_id == it

/-- The table invariant backing `UNIQUE(user_id, item_id)`: no two rows
share a key. -/
def UniqueKeys (db : List ScoreRow) : Prop := (db.map keyOf).Nodup

instance (db : List ScoreRow) : Decidable (UniqueKeys db) :=
  inferInstanceAs (Decidable (db.map keyOf).Nodup)

/-- `save_user_score` (src/db.py lines 157-165): `INSERT OR REPLACE`
deletes any row with the same `(user_id, item_id)` key and inserts a fresh
row; the `notified` column is omitted from the column list, so the new
row takes its default value 0. -/
def save_user_score (db : List ScoreRow) (u : Int) (it : String)
    (score : ℚ) (topics : List String) (reason : String) : List ScoreRow :=
  (db.filter (fun r => !(sameKey u it r))) ++ [⟨u, it, score, topics, reason, false⟩]

/-- `mark_notified` (src/db.py lines 181-188): single-row UPDATE setting
`notified=1` on the matching key. -/
def mark_notified (db : List ScoreRow) (u : Int) (it : String) : List ScoreRow :=
  db.map (fun r => if sameKey u it r then { r with notified := true } else r)

/-- A row of the `items` table as far as `get_unnotified_items` joins on
it (src/db.py lines 33-43): `id` is the primary key. -/
structure DbItem where
  id : String
  title : String
deriving DecidableEq

def insertByScoreDesc (x : DbItem × ScoreRow) :
    List (DbItem × ScoreRow) → List (DbItem × ScoreRow)
  | [] => [x]
  | y :: ys =>
    if x.2.llm_score < y.2.llm_score then y :: insertByScoreDesc x ys
    else x :: y :: ys

/-- `ORDER BY s.llm_score DESC`. -/
def sortByScoreDesc (l : List (DbItem × ScoreRow)) : List (DbItem × ScoreRow) :=
  l.foldr insertByScoreDesc []

/-- `get_unnotified_items` (src/db.py lines 168-178): join of
`user_item_scores` with `items` restricted to this user and `notified = 0`,
ordered by `llm_score` descending. -/
def get_unnotified_items (items : List DbItem) (db : List ScoreRow)
    (u : Int) : List (DbItem × ScoreRow) :=
  sortByScoreDesc (db.filterMap (fun s =>
    if s.user_id == u && s.notified == false then
      (items.find? (fun i => i.id == s.item_id)).map (fun i => (i, s))
    else none))

/-! ### The poll run (src/run_poll.py `main`, lines 77-91) -/

/-- Everything `score_item` needs for one (user, candidate) pair inside
the poll loop. -/
structure ScoringTask where
  item : Item
  emb : List ℝ
  likedAll : List FeedbackItem
  dislikedAll : List FeedbackItem
  tracked : List (List ℝ)
  oracle : Nat → Except ApiError LlmResponse

noncomputable def run_score (t : ScoringTask) : ScoreOutcome :=
  score_item t.item t.emb t.likedAll t.dislikedAll t.tracked t.oracle

/-- The sequential scoring loop of `main` (src/run_poll.py lines 77-91):
each task is scored in order and accepted items are collected for
notification.  There is no try/except around `score_item`, so an
exception escaping it aborts the whole run. -/
noncomputable def poll_loop : List ScoringTask →
    Except ApiError (List (Item × JudgeResult))
  | [] => .ok []
  | t :: ts =>
    match (run_score t).result with
    | .error e => .error e
    | .ok none => poll_loop ts
    | .ok (some acc) =>
      match poll_loop ts with
      | .error e => .error e
      | .ok rest => .ok (acc :: rest)

/-! ### Concrete sample data (used by witnesses and counterexamples) -/

/-- Candidate whose title/text contain cold-start keywords. -/
def itemML : Item :=
  ⟨"item-1", "urlA", "New vLLM release", "Fast inference.", "blog"⟩

/-- Candidate without any cold-start keyword. -/
def itemCooking : Item :=
  ⟨"item-2", "urlB", "Cooking", "Pasta recipes", "blog"⟩

def titleLikedA : String := "liked A"

def titleLikedB : String := "liked B"

/-- A liked row with embedding `[1, 0]`. -/
def fbLikeX : FeedbackItem := ⟨"fa", some titleLikedA, none, some [1, 0], none⟩

/-- A liked row with embedding `[0, 1]`. -/
def fbLikeY : FeedbackItem := ⟨"fy", some titleLikedB, none, some [0, 1], none⟩

/-- Five liked rows, all orthogonal to the candidate embedding `[1, 0]`. -/
def likedOrth : List FeedbackItem := [fbLikeY, fbLikeY, fbLikeY, fbLikeY, fbLikeY]

/-- Five liked rows: four aligned with `[1, 0]`, one orthogonal, so the
max and average similarities differ. -/
def likedMix : List FeedbackItem := [fbLikeX, fbLikeX, fbLikeX, fbLikeX, fbLikeY]

def goodResult : JudgeResult := ⟨80, ["llm", "serving"], "relevant"⟩

def lowResult : JudgeResult := ⟨10, ["cooking"], "off-topic"⟩

/-- Oracle: every API attempt succeeds with a parseable body. -/
def okOracle (r : JudgeResult) : Nat → Except ApiError LlmResponse :=
  fun _ => .ok (.parseable r)

/-- Oracle: every API attempt raises the given exception. -/
def failOracle (e : ApiError) : Nat → Except ApiError LlmResponse :=
  fun _ => .error e

/-- Oracle: the API succeeds but the body does not parse. -/
def malformedOracle : Nat → Except ApiError LlmResponse :=
  fun _ => .ok .malformed

/-- A score row already marked notified. -/
def rowOld : ScoreRow := ⟨7, "item-1", 50, ["a"], "old reason", true⟩

def dbOne : List ScoreRow := [rowOld]

def dbItems : List DbItem := [⟨"item-1", "New vLLM release"⟩]

/-- A cold-start scoring task whose oracle always times out. -/
def taskBad : ScoringTask := ⟨itemML, [], [], [], [], failOracle .timeout⟩

/-- A cold-start scoring task whose oracle always hits the rate limit. -/
def taskRate : ScoringTask := ⟨itemML, [], [], [], [], failOracle .rateLimit⟩

/-- A cold-start scoring task that is accepted with score 80. -/
def taskGood : ScoringTask := ⟨itemML, [], [], [], [], okOracle goodResult⟩

def iid1 : String := "item-1"

def reasonNew : String := "new reason"

/-- The adjusted score exactly as the claim wording states it (for
comparison with the source formula `adjusted_score`): similarity to the
single closest liked article, joined with the best tracked similarity
when tracked embeddings exist, minus half the similarity to the closest
disliked article — no max/average blend. -/
noncomputable def adjusted_score_claimed (emb : List ℝ)
    (liked : List FeedbackItem) (tracked : List (List ℝ))
    (disliked : List FeedbackItem) : ℝ :=
  let m := max_similarity_to_liked emb liked
  let ml := match tracked with
    | [] => m
    | t :: ts =>
      max m (listMax ((t :: ts).map (fun te => cosine_similarity emb te)))
  ml - 0.5 * min_similarity_to_disliked emb disliked

/-! ## Theorems

Shared helper lemmas first, then one theorem per claim (with witnesses
and counterexamples where required). -/

theorem dot_cons (x y : ℝ) (as bs : List ℝ) :
    dot (x :: as) (y :: bs) = x * y + dot as bs := by
  simp [dot]

theorem sqNorm_cons (x : ℝ) (as : List ℝ) :
    sqNorm (x :: as) = x * x + sqNorm as := by
  simp [sqNorm]

theorem sqNorm_nonneg (a : List ℝ) : 0 ≤ sqNorm a := by
  refine List.sum_nonneg ?_
  intro y hy
  obtain ⟨x, _, rfl⟩ := List.mem_map.mp hy
  exact mul_self_nonneg x

theorem dot_comm (a b : List ℝ) : dot a b = dot b a := by
  induction a generalizing b with
  | nil => cases b <;> simp [dot]
  | cons x as ih =>
    cases b with
    | nil => simp [dot]
    | cons y bs =>
      have h := ih bs
      simp only [dot, List.zipWith_cons_cons, List.sum_cons] at h ⊢
      rw [mul_comm, h]

/-- Cauchy-Schwarz for the truncating list dot product. -/
theorem dot_sq_le (a b : List ℝ) : dot a b ^ 2 ≤ sqNorm a * sqNorm b := by
  induction a generalizing b with
  | nil => simp [dot, sqNorm]
  | cons x as ih =>
    cases b with
    | nil => simp [dot, sqNorm]
    | cons y bs =>
      have hA := sqNorm_nonneg as
      have hB := sqNorm_nonneg bs
      have hS := ih bs
      rw [dot_cons, sqNorm_cons, sqNorm_cons]
      rcases hB.eq_or_lt with hB0 | hBpos
      · have hsq : dot as bs ^ 2 = 0 :=
          le_antisymm (by nlinarith [hS]) (sq_nonneg _)
        have hS0 : dot as bs = 0 := sq_eq_zero_iff.mp hsq
        rw [hS0, ← hB0]
        nlinarith [mul_nonneg hA (mul_self_nonneg y)]
      · nlinarith [sq_nonneg (x * sqNorm bs - y * dot as bs),
          mul_nonneg (add_nonneg (mul_self_nonneg y) hB)
            (sub_nonneg.mpr hS), hBpos]

theorem dot_self_eq_sqNorm (v : List ℝ) : dot v v = sqNorm v := by
  induction v with
  | nil => simp [dot, sqNorm]
  | cons x xs ih => rw [dot_cons, sqNorm_cons, ih]

theorem simEps_pos : (0 : ℝ) < simEps := by norm_num [simEps]

theorem abs_dot_le (a b : List ℝ) : |dot a b| ≤ norm2 a * norm2 b := by
  have h := dot_sq_le a b
  have hA := sqNorm_nonneg a
  rw [← Real.sqrt_sq_eq_abs, norm2, norm2, ← Real.sqrt_mul hA]
  exact Real.sqrt_le_sqrt h

theorem cosine_denom_pos (a b : List ℝ) :
    0 < norm2 a * norm2 b + simEps := by
  have h := mul_nonneg (Real.sqrt_nonneg (sqNorm a)) (Real.sqrt_nonneg (sqNorm b))
  have he := simEps_pos
  simp only [norm2] at *
  linarith

theorem dot_replicate_zero (n : Nat) (b : List ℝ) :
    dot (List.replicate n 0) b = 0 := by
  induction n generalizing b with
  | zero => simp [dot]
  | succ m ih =>
    cases b with
    | nil => simp [dot]
    | cons y bs =>
      rw [List.replicate_succ, dot_cons, ih bs]
      ring

/-- Claim C8: the similarity function is cosine similarity with a small
epsilon added to the denominator; it is symmetric, self-similarity of a
non-zero vector is 1 up to epsilon (strictly below 1, at least
`1 - eps / |v|^2`), the result always lies in [-1, 1], and on all-zero
vectors the epsilon prevents division by zero and the value is 0. -/
theorem c8_cosine_similarity_props (a b v : List ℝ) (n : Nat)
    (hv : 0 < sqNorm v) :
    cosine_similarity a b = cosine_similarity b a ∧
    (-1 ≤ cosine_similarity a b ∧ cosine_similarity a b ≤ 1) ∧
    (1 - simEps / sqNorm v ≤ cosine_similarity v v ∧
      cosine_similarity v v < 1) ∧
    cosine_similarity (List.replicate n 0) (List.replicate n 0) = 0 := by
  have hden := cosine_denom_pos a b
  refine ⟨?_, ?_, ?_, ?_⟩
  · rw [cosine_similarity, cosine_similarity, dot_comm, mul_comm (norm2 a)]
  · have habs : |cosine_similarity a b| ≤ 1 := by
      rw [cosine_similarity, abs_div, abs_of_pos hden]
      rw [div_le_one hden]
      have := abs_dot_le a b
      linarith [simEps_pos]
    exact abs_le.mp habs
  · have hself : cosine_similarity v v = sqNorm v / (sqNorm v + simEps) := by
      rw [cosine_similarity, norm2, Real.mul_self_sqrt (sqNorm_nonneg v),
        dot_self_eq_sqNorm]
    have hd : (0 : ℝ) < sqNorm v + simEps := by linarith [simEps_pos]
    constructor
    · rw [hself, le_div_iff₀ hd]
      have hv' : sqNorm v ≠ 0 := ne_of_gt hv
      field_simp
      rw [div_le_iff₀ hv]
      nlinarith [sq_nonneg simEps, simEps_pos]
    · rw [hself, div_lt_one hd]
      linarith [simEps_pos]
  · rw [cosine_similarity, dot_replicate_zero, zero_div]

/-- Closed instance of `c8_cosine_similarity_props`, discharging its
non-zero-vector hypothesis at `v = [1]`. -/
theorem c8_witness :
    (0 : ℝ) < sqNorm [1] ∧
    (cosine_similarity [(1 : ℝ), 0] [0, 1] =
        cosine_similarity [0, 1] [(1 : ℝ), 0] ∧
      (-1 ≤ cosine_similarity [(1 : ℝ), 0] [0, 1] ∧
        cosine_similarity [(1 : ℝ), 0] [0, 1] ≤ 1) ∧
      (1 - simEps / sqNorm [1] ≤ cosine_similarity [(1 : ℝ)] [1] ∧
        cosine_similarity [(1 : ℝ)] [1] < 1) ∧
      cosine_similarity (List.replicate 2 0) (List.replicate 2 0) = 0) := by
  have hv : (0 : ℝ) < sqNorm [1] := by norm_num [sqNorm]
  exact ⟨hv, c8_cosine_similarity_props [1, 0] [0, 1] [1] 2 hv⟩

theorem chat_first_ok (oracle : Nat → Except ApiError LlmResponse)
    (body : LlmResponse) (h : oracle 1 = .ok body) :
    chat_with_retry oracle = ⟨.ok body, 1, []⟩ := by
  have h5 : MAX_RETRIES = 4 + 1 := rfl
  rw [chat_with_retry, h5]
  simp only [chat_attempt_loop, h]

theorem chat_first_fatal (oracle : Nat → Except ApiError LlmResponse)
    (e : ApiError) (h : oracle 1 = .error e) (hr : retryable e = false) :
    chat_with_retry oracle = ⟨.error e, 1, []⟩ := by
  have h5 : MAX_RETRIES = 4 + 1 := rfl
  rw [chat_with_retry, h5]
  simp only [chat_attempt_loop, h, hr]
  simp

theorem chat_exhaust (oracle : Nat → Except ApiError LlmResponse)
    (e : ApiError) (h : ∀ k, oracle k = .error e) (hr : retryable e = true) :
    chat_with_retry oracle = ⟨.error e, 5, [2, 4, 8, 16]⟩ := by
  have h5 : MAX_RETRIES = 4 + 1 := rfl
  rw [chat_with_retry, h5]
  simp only [chat_attempt_loop, h 1, h 2, h 3, h 4, h 5, hr]
  norm_num [BASE_DELAY]

theorem llm_judge_exhaust_rate_limit (oracle : Nat → Except ApiError LlmResponse)
    (h : ∀ k, oracle k = .error .rateLimit) : llm_judge oracle = .ok none := by
  rw [llm_judge, chat_exhaust oracle .rateLimit h rfl]

theorem llm_judge_exhaust_fatal (oracle : Nat → Except ApiError LlmResponse)
    (e : ApiError) (h : ∀ k, oracle k = .error e) (hr : retryable e = true)
    (hne : e ≠ .rateLimit) : llm_judge oracle = .error e := by
  rw [llm_judge, chat_exhaust oracle e h hr]
  cases e with
  | rateLimit => exact absurd rfl hne
  | connection => rfl
  | timeout => rfl
  | server => rfl
  | badRequest => rfl

theorem llm_judge_first_ok_parseable (oracle : Nat → Except ApiError LlmResponse)
    (r : JudgeResult) (h : oracle 1 = .ok (.parseable r)) :
    llm_judge oracle = .ok (some r) := by
  rw [llm_judge, chat_first_ok oracle (.parseable r) h]

theorem llm_judge_first_ok_malformed (oracle : Nat → Except ApiError LlmResponse)
    (h : oracle 1 = .ok .malformed) : llm_judge oracle = .ok none := by
  rw [llm_judge, chat_first_ok oracle .malformed h]

/-- Claim C5: `chat_with_retry` retries exactly the transient failure
kinds (rate limiting, connection errors, timeouts, server errors) with
exponential backoff — base delay 2 s doubling each attempt, at most 5
attempts — then re-raises; a first-attempt non-retryable error or success
is returned immediately with no sleep, and a successful-but-malformed
body is never retried and is a terminal judge failure (`llm_judge`
returns `.ok none`). -/
theorem c5_retry_contract (e : ApiError)
    (oracle : Nat → Except ApiError LlmResponse) (body : LlmResponse) :
    (retryable e = true ↔
      (e = .rateLimit ∨ e = .connection ∨ e = .timeout ∨ e = .server)) ∧
    ((∀ k, oracle k = .error e) → retryable e = true →
      chat_with_retry oracle = ⟨.error e, MAX_RETRIES, [2, 4, 8, 16]⟩) ∧
    (oracle 1 = .error e → retryable e = false →
      chat_with_retry oracle = ⟨.error e, 1, []⟩) ∧
    (oracle 1 = .ok body → chat_with_retry oracle = ⟨.ok body, 1, []⟩) ∧
    (oracle 1 = .ok .malformed → llm_judge oracle = .ok none) := by
  refine ⟨?_, ?_, ?_, ?_, ?_⟩
  · cases e <;> simp [retryable]
  · intro h hr
    exact chat_exhaust oracle e h hr
  · intro h hr
    exact chat_first_fatal oracle e h hr
  · intro h
    exact chat_first_ok oracle body h
  · intro h
    exact llm_judge_first_ok_malformed oracle h

/-- Closed instances of `c5_retry_contract`: exhaustion on timeouts,
immediate propagation of a non-retryable error, and a malformed first
response treated as a terminal judge failure. -/
theorem c5_witness :
    chat_with_retry (failOracle .timeout) =
      ⟨.error .timeout, MAX_RETRIES, [2, 4, 8, 16]⟩ ∧
    chat_with_retry (failOracle .badRequest) = ⟨.error .badRequest, 1, []⟩ ∧
    chat_with_retry (okOracle goodResult) =
      ⟨.ok (.parseable goodResult), 1, []⟩ ∧
    llm_judge malformedOracle = .ok none :=
  ⟨(c5_retry_contract .timeout (failOracle .timeout) .malformed).2.1
      (fun _ => rfl) rfl,
   (c5_retry_contract .badRequest (failOracle .badRequest) .malformed).2.2.1
      rfl rfl,
   (c5_retry_contract .timeout (okOracle goodResult)
      (.parseable goodResult)).2.2.2.1 rfl,
   (c5_retry_contract .timeout malformedOracle .malformed).2.2.2.2 rfl⟩

/-- Claim C9 (amended): the worst-case total back-off sleep before a judge
call gives up is `BASE_DELAY * (2 ^ (MAX_RETRIES - 1) - 1)` = 30 seconds —
the loop sleeps only after the first 4 failed attempts (2 + 4 + 8 + 16),
not after the final one. -/
theorem c9_backoff_ceiling (e : ApiError)
    (oracle : Nat → Except ApiError LlmResponse)
    (h : ∀ k, oracle k = .error e) (hr : retryable e = true) :
    ((chat_with_retry oracle).sleeps).sum =
      BASE_DELAY * (2 ^ (MAX_RETRIES - 1) - 1) ∧
    BASE_DELAY * ((2 : ℚ) ^ (MAX_RETRIES - 1) - 1) = 30 := by
  rw [chat_exhaust oracle e h hr]
  norm_num [BASE_DELAY, MAX_RETRIES]

/-- Closed instance of `c9_backoff_ceiling` at an always-failing oracle. -/
theorem c9_witness :
    ((chat_with_retry (failOracle .server)).sleeps).sum =
      BASE_DELAY * (2 ^ (MAX_RETRIES - 1) - 1) ∧
    BASE_DELAY * ((2 : ℚ) ^ (MAX_RETRIES - 1) - 1) = 30 :=
  c9_backoff_ceiling .server (failOracle .server) (fun _ => rfl) rfl

/-- Claim C9 counterexample: the total sleep across the retry ceiling is
30 seconds, whereas the claimed formula `base_delay * (2 ^ 5 - 1)`
evaluates to 62 seconds. -/
theorem c9_counterexample :
    ((chat_with_retry (failOracle .connection)).sleeps).sum = 30 ∧
    BASE_DELAY * ((2 : ℚ) ^ MAX_RETRIES - 1) = 62 ∧
    ((chat_with_retry (failOracle .connection)).sleeps).sum ≠
      BASE_DELAY * ((2 : ℚ) ^ MAX_RETRIES - 1) := by
  rw [chat_exhaust (failOracle .connection) .connection (fun _ => rfl) rfl]
  norm_num [BASE_DELAY, MAX_RETRIES]

theorem score_item_llmCalled (item : Item) (emb : List ℝ)
    (likedAll dislikedAll : List FeedbackItem) (tracked : List (List ℝ))
    (oracle : Nat → Except ApiError LlmResponse) :
    (score_item item emb likedAll dislikedAll tracked oracle).llmCalled =
      ((build_preference_profile (likedAll.take 30) (dislikedAll.take 20)
        tracked).has_history || cold_start_matches item) := by
  simp only [score_item]
  cases hh : (build_preference_profile (likedAll.take 30) (dislikedAll.take 20)
      tracked).has_history with
  | false =>
    cases hc : cold_start_matches item with
    | false => simp [hc]
    | true =>
      cases h : llm_judge oracle with
      | error e => simp [h, hc]
      | ok o =>
        cases o with
        | none => simp [h, hc]
        | some r =>
          by_cases hs : r.score < LLM_SCORE_THRESHOLD <;> simp [h, hs, hc]
  | true =>
    cases h : llm_judge oracle with
    | error e => simp [h]
    | ok o =>
      cases o with
      | none => simp [h]
      | some r =>
        by_cases hs : r.score < LLM_SCORE_THRESHOLD <;> simp [h, hs]

theorem score_item_of_judge_none (item : Item) (emb : List ℝ)
    (likedAll dislikedAll : List FeedbackItem) (tracked : List (List ℝ))
    (oracle : Nat → Except ApiError LlmResponse)
    (hj : llm_judge oracle = .ok none) :
    (score_item item emb likedAll dislikedAll tracked oracle).saved = none ∧
    (score_item item emb likedAll dislikedAll tracked oracle).result =
      .ok none := by
  simp only [score_item]
  cases hh : (build_preference_profile (likedAll.take 30) (dislikedAll.take 20)
      tracked).has_history with
  | false =>
    cases hc : cold_start_matches item with
    | false => simp [hc]
    | true => simp [hj, hc]
  | true => simp [hj]

theorem score_item_of_judge_error (item : Item) (emb : List ℝ)
    (likedAll dislikedAll : List FeedbackItem) (tracked : List (List ℝ))
    (oracle : Nat → Except ApiError LlmResponse) (e : ApiError)
    (hj : llm_judge oracle = .error e)
    (hcall : (score_item item emb likedAll dislikedAll tracked
      oracle).llmCalled = true) :
    (score_item item emb likedAll dislikedAll tracked oracle).result =
      .error e := by
  have hl := score_item_llmCalled item emb likedAll dislikedAll tracked oracle
  rw [hcall] at hl
  simp only [score_item]
  cases hh : (build_preference_profile (likedAll.take 30) (dislikedAll.take 20)
      tracked).has_history with
  | false =>
    rw [hh] at hl
    simp only [Bool.false_or] at hl
    simp [hl.symm, hj]
  | true => simp [hj]

theorem score_item_of_judge_some (item : Item) (emb : List ℝ)
    (likedAll dislikedAll : List FeedbackItem) (tracked : List (List ℝ))
    (oracle : Nat → Except ApiError LlmResponse) (r : JudgeResult)
    (hj : llm_judge oracle = .ok (some r))
    (hcall : (score_item item emb likedAll dislikedAll tracked
      oracle).llmCalled = true) :
    (r.score < LLM_SCORE_THRESHOLD →
      (score_item item emb likedAll dislikedAll tracked oracle).saved = none ∧
      (score_item item emb likedAll dislikedAll tracked oracle).result =
        .ok none) ∧
    (LLM_SCORE_THRESHOLD ≤ r.score →
      (score_item item emb likedAll dislikedAll tracked oracle).saved =
        some r ∧
      (score_item item emb likedAll dislikedAll tracked oracle).result =
        .ok (some (item, r))) := by
  have hl := score_item_llmCalled item emb likedAll dislikedAll tracked oracle
  rw [hcall] at hl
  constructor
  · intro hs
    simp only [score_item]
    cases hh : (build_preference_profile (likedAll.take 30)
        (dislikedAll.take 20) tracked).has_history with
    | false =>
      rw [hh] at hl
      simp only [Bool.false_or] at hl
      simp [hl.symm, hj, hs]
    | true => simp [hj, hs]
  · intro hs
    have hs' : ¬(r.score < LLM_SCORE_THRESHOLD) := not_lt.mpr hs
    simp only [score_item]
    cases hh : (build_preference_profile (likedAll.take 30)
        (dislikedAll.take 20) tracked).has_history with
    | false =>
      rw [hh] at hl
      simp only [Bool.false_or] at hl
      simp [hl.symm, hj, hs']
    | true => simp [hj, hs']

/-- Claim C1 (amended): the embedding-similarity gate is disabled in the
source (the rejection branch is commented out, src/ranker.py lines
139-150), so for every warm-start user (`has_history == true`) the LLM
judge is invoked for every candidate, regardless of how small the computed
`adjusted_score` is. -/
theorem c1_gate_disabled (item : Item) (emb : List ℝ)
    (likedAll dislikedAll : List FeedbackItem) (tracked : List (List ℝ))
    (oracle : Nat → Except ApiError LlmResponse)
    (hw : (build_preference_profile (likedAll.take 30) (dislikedAll.take 20)
      tracked).has_history = true) :
    (score_item item emb likedAll dislikedAll tracked oracle).llmCalled =
      true := by
  rw [score_item_llmCalled, hw, Bool.true_or]

/-- Closed instance of `c1_gate_disabled` at a warm-start user with five
liked articles. -/
theorem c1_witness :
    (build_preference_profile (likedOrth.take 30)
      (List.take 20 ([] : List FeedbackItem)) []).has_history = true ∧
    (score_item itemCooking [1, 0] likedOrth [] []
      (okOracle goodResult)).llmCalled = true :=
  ⟨rfl, c1_gate_disabled itemCooking [1, 0] likedOrth [] []
    (okOracle goodResult) rfl⟩

/-- Claim C1 counterexample: a warm-start user whose five liked articles
are all orthogonal to the candidate embedding, so `adjusted_score` is 0,
strictly below the 0.65 threshold — and the LLM judge is still invoked. -/
theorem c1_counterexample :
    (score_item itemCooking [1, 0] likedOrth [] []
        (okOracle goodResult)).adjusted =
      some (adjusted_score [1, 0] (likedOrth.take 50) [] []) ∧
    adjusted_score [1, 0] (likedOrth.take 50) [] [] <
      EMBEDDING_SIMILARITY_THRESHOLD ∧
    (score_item itemCooking [1, 0] likedOrth [] []
      (okOracle goodResult)).llmCalled = true := by
  refine ⟨rfl, ?_, rfl⟩
  have h2 : cosine_similarity [(1 : ℝ), 0] [0, 1] = 0 := by
    simp [cosine_similarity, dot, sqNorm]
  have hz : adjusted_score [1, 0] (likedOrth.take 50) [] [] = 0 := by
    simp [adjusted_score, sim_liked_parts, max_similarity_to_liked,
      avg_similarity_to_liked, min_similarity_to_disliked, likedOrth,
      fbLikeY, listMax, h2]
  rw [hz]
  norm_num [EMBEDDING_SIMILARITY_THRESHOLD]

/-- Claim C2 (amended): for every warm-start user the embedding-stage
estimate recorded by `score_item` is the blended formula
`0.7 * sim_liked_max + 0.3 * sim_liked_avg - 0.5 * sim_disliked`, where
`sim_liked_max`/`sim_liked_avg` are the max/average cosine similarity to
the first 50 liked articles (each boosted against the tracked-article
similarities when tracked embeddings exist) and `sim_disliked` the max
similarity to the first 50 disliked articles — not the plain
`sim_liked_max - 0.5 * sim_disliked` of the claim. -/
theorem c2_blended_formula (item : Item) (emb : List ℝ)
    (likedAll dislikedAll : List FeedbackItem) (tracked : List (List ℝ))
    (oracle : Nat → Except ApiError LlmResponse)
    (hw : (build_preference_profile (likedAll.take 30) (dislikedAll.take 20)
      tracked).has_history = true) :
    (score_item item emb likedAll dislikedAll tracked oracle).adjusted =
      some (0.7 * (sim_liked_parts emb (likedAll.take 50) tracked).1 +
        0.3 * (sim_liked_parts emb (likedAll.take 50) tracked).2 -
        0.5 * min_similarity_to_disliked emb (dislikedAll.take 50)) := by
  simp only [score_item, hw]
  cases h : llm_judge oracle with
  | error e => simp [h, adjusted_score]
  | ok o =>
    cases o with
    | none => simp [h, adjusted_score]
    | some r =>
      by_cases hs : r.score < LLM_SCORE_THRESHOLD <;>
        simp [h, hs, adjusted_score]

/-- Closed instance of `c2_blended_formula` at a warm-start user. -/
theorem c2_witness :
    (build_preference_profile (likedMix.take 30)
      (List.take 20 ([] : List FeedbackItem)) []).has_history = true ∧
    (score_item itemML [1, 0] likedMix [] []
        (okOracle goodResult)).adjusted =
      some (0.7 * (sim_liked_parts [1, 0] (likedMix.take 50) []).1 +
        0.3 * (sim_liked_parts [1, 0] (likedMix.take 50) []).2 -
        0.5 * min_similarity_to_disliked [1, 0]
          (List.take 50 ([] : List FeedbackItem))) :=
  ⟨rfl, c2_blended_formula itemML [1, 0] likedMix [] []
    (okOracle goodResult) rfl⟩

/-- Claim C2 counterexample: a warm-start user with four liked articles
aligned with the candidate and one orthogonal; the blend
`0.7 * max + 0.3 * avg` differs from the claimed `sim_liked_max` term, so
the adjusted score computed by the code is not the claimed
`sim_liked - 0.5 * sim_disliked` with `sim_liked` the similarity to the
single closest liked article. -/
theorem c2_counterexample :
    (build_preference_profile (likedMix.take 30)
      (List.take 20 ([] : List FeedbackItem)) []).has_history = true ∧
    adjusted_score [1, 0] (likedMix.take 50) [] [] ≠
      adjusted_score_claimed [1, 0] (likedMix.take 50) [] [] := by
  refine ⟨rfl, ?_⟩
  have h1 : cosine_similarity [(1 : ℝ), 0] [1, 0] = 1 / (1 + simEps) := by
    simp [cosine_similarity, dot, sqNorm, norm2]
  have h2 : cosine_similarity [(1 : ℝ), 0] [0, 1] = 0 := by
    simp [cosine_similarity, dot, sqNorm]
  have hc : (0 : ℝ) < (1 + simEps)⁻¹ := by
    have heps : (0 : ℝ) < 1 + simEps := by norm_num [simEps]
    positivity
  have hm : ((1 + simEps)⁻¹ ⊔ (0 : ℝ)) = (1 + simEps)⁻¹ := max_eq_left hc.le
  simp only [adjusted_score, adjusted_score_claimed, sim_liked_parts,
    max_similarity_to_liked, avg_similarity_to_liked,
    min_similarity_to_disliked, likedMix, fbLikeX, fbLikeY, listMax,
    List.take, List.filterMap, List.map, h1, h2, List.foldl, List.sum_cons,
    List.sum_nil, List.length, one_div, max_self, hm]
  intro h
  nlinarith [hc]

/-- Claim C3 (amended): for a candidate that reaches the LLM judge, the
per-user score row is persisted only when the response parses AND the
score clears `LLM_SCORE_THRESHOLD`; a parseable below-threshold response
is rejected with no row persisted (contrary to the claim), and an
unparseable response is rejected with no row persisted. -/
theorem c3_persist_on_accept_only (item : Item) (emb : List ℝ)
    (likedAll dislikedAll : List FeedbackItem) (tracked : List (List ℝ))
    (oracle : Nat → Except ApiError LlmResponse) (r : JudgeResult)
    (hcall : (score_item item emb likedAll dislikedAll tracked
      oracle).llmCalled = true) :
    (oracle 1 = .ok (.parseable r) →
      (LLM_SCORE_THRESHOLD ≤ r.score →
        (score_item item emb likedAll dislikedAll tracked oracle).saved =
          some r ∧
        (score_item item emb likedAll dislikedAll tracked oracle).result =
          .ok (some (item, r))) ∧
      (r.score < LLM_SCORE_THRESHOLD →
        (score_item item emb likedAll dislikedAll tracked oracle).saved =
          none ∧
        (score_item item emb likedAll dislikedAll tracked oracle).result =
          .ok none)) ∧
    (oracle 1 = .ok .malformed →
      (score_item item emb likedAll dislikedAll tracked oracle).saved =
        none ∧
      (score_item item emb likedAll dislikedAll tracked oracle).result =
        .ok none) := by
  constructor
  · intro hor
    have hj := llm_judge_first_ok_parseable oracle r hor
    have h := score_item_of_judge_some item emb likedAll dislikedAll tracked
      oracle r hj hcall
    exact ⟨h.2, h.1⟩
  · intro hor
    have hj := llm_judge_first_ok_malformed oracle hor
    exact score_item_of_judge_none item emb likedAll dislikedAll tracked
      oracle hj

/-- Closed instance of `c3_persist_on_accept_only` on the cold-start
accept path. -/
theorem c3_witness :
    (score_item itemML [] [] [] [] (okOracle goodResult)).llmCalled =
      true ∧
    ((okOracle goodResult) 1 = .ok (.parseable goodResult) →
      (LLM_SCORE_THRESHOLD ≤ goodResult.score →
        (score_item itemML [] [] [] [] (okOracle goodResult)).saved =
          some goodResult ∧
        (score_item itemML [] [] [] [] (okOracle goodResult)).result =
          .ok (some (itemML, goodResult))) ∧
      (goodResult.score < LLM_SCORE_THRESHOLD →
        (score_item itemML [] [] [] [] (okOracle goodResult)).saved =
          none ∧
        (score_item itemML [] [] [] [] (okOracle goodResult)).result =
          .ok none)) ∧
    ((okOracle goodResult) 1 = .ok .malformed →
      (score_item itemML [] [] [] [] (okOracle goodResult)).saved = none ∧
      (score_item itemML [] [] [] [] (okOracle goodResult)).result =
        .ok none) :=
  ⟨rfl, c3_persist_on_accept_only itemML [] [] [] [] (okOracle goodResult)
    goodResult rfl⟩

/-- Claim C3 counterexample: a cold-start candidate reaches the judge,
the response parses with score 10 (below the threshold 65), and — contrary
to the claim that the row is persisted regardless of the numeric value —
no `save_user_score` call happens and the candidate is rejected. -/
theorem c3_counterexample :
    (score_item itemML [] [] [] [] (okOracle lowResult)).llmCalled = true ∧
    (score_item itemML [] [] [] [] (okOracle lowResult)).saved = none ∧
    (score_item itemML [] [] [] [] (okOracle lowResult)).result =
      .ok none :=
  ⟨rfl, rfl, rfl⟩

/-- Claim C4: for a cold-start user (`has_history == false`) a candidate
with no cold-start keyword in its lower-cased title+text is rejected with
no LLM call, nothing persisted and nothing returned; a candidate with a
keyword match goes straight to the LLM judge with the generic fixed
profile sentence, skipping the similarity computation. -/
theorem c4_cold_start_gate (item : Item) (emb : List ℝ)
    (likedAll dislikedAll : List FeedbackItem) (tracked : List (List ℝ))
    (oracle : Nat → Except ApiError LlmResponse)
    (hc : (build_preference_profile (likedAll.take 30) (dislikedAll.take 20)
      tracked).has_history = false) :
    (cold_start_matches item = false →
      score_item item emb likedAll dislikedAll tracked oracle =
        ⟨false, none, none, none, .ok none⟩) ∧
    (cold_start_matches item = true →
      (score_item item emb likedAll dislikedAll tracked oracle).llmCalled =
        true ∧
      (score_item item emb likedAll dislikedAll tracked
        oracle).profileText = some coldStartProfileText ∧
      (score_item item emb likedAll dislikedAll tracked oracle).adjusted =
        none) := by
  constructor
  · intro hm
    simp [score_item, hc, hm]
  · intro hm
    simp only [score_item, hc, hm]
    cases h : llm_judge oracle with
    | error e => simp [h]
    | ok o =>
      cases o with
      | none => simp [h]
      | some r =>
        by_cases hs : r.score < LLM_SCORE_THRESHOLD <;> simp [h, hs]

/-- Closed instance of `c4_cold_start_gate` for a cold-start user, with
both a keyword-free candidate and a keyword-matching one. -/
theorem c4_witness :
    (build_preference_profile (List.take 30 ([] : List FeedbackItem))
      (List.take 20 ([] : List FeedbackItem)) []).has_history = false ∧
    score_item itemCooking [] [] [] [] (okOracle goodResult) =
      ⟨false, none, none, none, .ok none⟩ ∧
    ((score_item itemML [] [] [] [] (okOracle goodResult)).llmCalled =
        true ∧
      (score_item itemML [] [] [] [] (okOracle goodResult)).profileText =
        some coldStartProfileText ∧
      (score_item itemML [] [] [] [] (okOracle goodResult)).adjusted =
        none) :=
  ⟨rfl,
   (c4_cold_start_gate itemCooking [] [] [] [] (okOracle goodResult)
     rfl).1 rfl,
   (c4_cold_start_gate itemML [] [] [] [] (okOracle goodResult)
     rfl).2 rfl⟩

theorem keyOf_markRow (u : Int) (it : String) (r : ScoreRow) :
    keyOf (if sameKey u it r then { r with notified := true } else r) =
      keyOf r := by
  by_cases hs : sameKey u it r <;> simp [hs, keyOf]

theorem mark_notified_keys (db : List ScoreRow) (u : Int) (it : String) :
    (mark_notified db u it).map keyOf = db.map keyOf := by
  induction db with
  | nil => rfl
  | cons r rest ih =>
    simp only [mark_notified, List.map_cons] at ih ⊢
    rw [keyOf_markRow, ih]

theorem save_keeps_unique (db : List ScoreRow) (u : Int) (it : String)
    (s : ℚ) (t : List String) (rs : String) (h : UniqueKeys db) :
    UniqueKeys (save_user_score db u it s t rs) := by
  rw [UniqueKeys, save_user_score, List.map_append, List.nodup_append]
  refine ⟨((List.filter_sublist db).map keyOf).nodup h, by simp, ?_⟩
  intro a ha hb
  simp only [List.map_cons, List.map_nil, List.mem_singleton] at hb
  obtain ⟨r, hr, rfl⟩ := List.mem_map.mp ha
  have hf := (List.mem_filter.mp hr).2
  simp only [keyOf, Prod.mk.injEq] at hb
  simp [sameKey, hb.1, hb.2] at hf

theorem save_filter_key (db : List ScoreRow) (u : Int) (it : String)
    (s : ℚ) (t : List String) (rs : String) :
    (save_user_score db u it s t rs).filter (fun r => sameKey u it r) =
      [⟨u, it, s, t, rs, false⟩] := by
  rw [save_user_score, List.filter_append]
  have h1 : (db.filter (fun r => !(sameKey u it r))).filter
      (fun r => sameKey u it r) = [] := by
    induction db with
    | nil => rfl
    | cons r rest ih =>
      by_cases hs : sameKey u it r <;> simp [hs, ih, List.filter]
  rw [h1]
  simp [sameKey]

/-- Claim C6: re-scoring a (user, item) pair overwrites rather than
duplicates — after two `save_user_score` calls on the same key exactly
one row with that key remains, holding the second call's values — and the
at-most-one-row-per-key invariant is preserved by both mutating
operations on the score store (`save_user_score` and `mark_notified`). -/
theorem c6_unique_score_rows (db : List ScoreRow) (u : Int) (it : String)
    (s1 : ℚ) (t1 : List String) (r1 : String) (s2 : ℚ) (t2 : List String)
    (r2 : String) (h : UniqueKeys db) :
    UniqueKeys (save_user_score db u it s1 t1 r1) ∧
    UniqueKeys (mark_notified db u it) ∧
    (save_user_score (save_user_score db u it s1 t1 r1) u it s2 t2
        r2).filter (fun r => sameKey u it r) =
      [⟨u, it, s2, t2, r2, false⟩] :=
  ⟨save_keeps_unique db u it s1 t1 r1 h,
   by rw [UniqueKeys, mark_notified_keys]; exact h,
   save_filter_key _ u it s2 t2 r2⟩

/-- Closed instance of `c6_unique_score_rows` on a one-row store. -/
theorem c6_witness :
    UniqueKeys dbOne ∧
    (UniqueKeys (save_user_score dbOne 7 iid1 80 ["x"] reasonNew) ∧
      UniqueKeys (mark_notified dbOne 7 iid1) ∧
      (save_user_score (save_user_score dbOne 7 iid1 80 ["x"] reasonNew) 7
          iid1 90 ["y"] reasonNew).filter (fun r => sameKey 7 iid1 r) =
        [⟨7, iid1, 90, ["y"], reasonNew, false⟩]) :=
  ⟨by decide,
   c6_unique_score_rows dbOne 7 iid1 80 ["x"] reasonNew 90 ["y"] reasonNew
     (by decide)⟩

theorem mem_insertByScoreDesc (x y : DbItem × ScoreRow)
    (l : List (DbItem × ScoreRow)) :
    x ∈ insertByScoreDesc y l ↔ x = y ∨ x ∈ l := by
  induction l with
  | nil => simp [insertByScoreDesc]
  | cons z zs ih =>
    by_cases hlt : y.2.llm_score < z.2.llm_score
    · simp only [insertByScoreDesc, if_pos hlt, List.mem_cons, ih]
      tauto
    · simp only [insertByScoreDesc, if_neg hlt, List.mem_cons]

theorem mem_sortByScoreDesc (x : DbItem × ScoreRow)
    (l : List (DbItem × ScoreRow)) :
    x ∈ sortByScoreDesc l ↔ x ∈ l := by
  induction l with
  | nil => simp [sortByScoreDesc]
  | cons z zs ih =>
    simp only [sortByScoreDesc, List.foldr_cons, List.mem_cons]
    rw [mem_insertByScoreDesc]
    rw [sortByScoreDesc] at ih
    rw [ih]

theorem mem_get_unnotified (items : List DbItem) (db : List ScoreRow)
    (u : Int) (p : DbItem × ScoreRow) :
    p ∈ get_unnotified_items items db u ↔
      p.2 ∈ db ∧ p.2.user_id = u ∧ p.2.notified = false ∧
        items.find? (fun i => i.id == p.2.item_id) = some p.1 := by
  rw [get_unnotified_items, mem_sortByScoreDesc, List.mem_filterMap]
  constructor
  · rintro ⟨s, hs, hf⟩
    by_cases hc : (s.user_id == u && s.notified == false) = true
    · rw [if_pos hc] at hf
      obtain ⟨i, hi, hpair⟩ := Option.map_eq_some'.mp hf
      cases hpair
      simp only [Bool.and_eq_true, beq_iff_eq] at hc
      exact ⟨hs, hc.1, hc.2, hi⟩
    · rw [if_neg hc] at hf
      cases hf
  · rintro ⟨hs, hu, hn, hf⟩
    refine ⟨p.2, hs, ?_⟩
    rw [if_pos (by simp [hu, hn])]
    rw [hf]
    rfl

/-- Claim C10: `save_user_score` omits the `notified` column from its
`INSERT OR REPLACE`, so re-scoring an already-notified (user, item) pair
replaces the row with one whose `notified` is back at the default 0: the
pair was absent from `get_unnotified_items` before the re-score and is
present in it afterwards, eligible for delivery again. -/
theorem c10_rescore_resets_notified (items : List DbItem)
    (db : List ScoreRow) (u : Int) (it : String) (s : ℚ)
    (t : List String) (rs : String) (row : ScoreRow) (i : DbItem)
    (hdb : UniqueKeys db) (hrow : row ∈ db) (hkey : keyOf row = (u, it))
    (hnot : row.notified = true) (hi : i ∈ items) (hid : i.id = it) :
    it ∉ (get_unnotified_items items db u).map (fun p => p.2.item_id) ∧
    (save_user_score db u it s t rs).filter (fun r => sameKey u it r) =
      [⟨u, it, s, t, rs, false⟩] ∧
    it ∈ (get_unnotified_items items (save_user_score db u it s t rs)
      u).map (fun p => p.2.item_id) := by
  refine ⟨?_, save_filter_key db u it s t rs, ?_⟩
  · intro hmem
    obtain ⟨p, hp, hpid⟩ := List.mem_map.mp hmem
    obtain ⟨hsdb, hu, hn, _⟩ := (mem_get_unnotified items db u p).mp hp
    have hkeq : keyOf p.2 = keyOf row := by
      rw [hkey, keyOf, hu, hpid]
    have hpr : p.2 = row := List.inj_on_of_nodup_map hdb hsdb hrow hkeq
    rw [hpr, hnot] at hn
    cases hn
  · have hfind : ∃ i0, items.find? (fun i2 => i2.id == it) = some i0 := by
      cases hf : items.find? (fun i2 => i2.id == it) with
      | none =>
        have := List.find?_eq_none.mp hf i hi
        simp [hid] at this
      | some i0 => exact ⟨i0, rfl⟩
    obtain ⟨i0, hi0⟩ := hfind
    have hnewmem : (⟨u, it, s, t, rs, false⟩ : ScoreRow) ∈
        save_user_score db u it s t rs := by
      rw [save_user_score]
      exact List.mem_append_right _ (List.mem_singleton.mpr rfl)
    refine List.mem_map.mpr ⟨(i0, ⟨u, it, s, t, rs, false⟩), ?_, rfl⟩
    exact (mem_get_unnotified items (save_user_score db u it s t rs) u
      (i0, ⟨u, it, s, t, rs, false⟩)).mpr ⟨hnewmem, rfl, rfl, hi0⟩

/-- Closed instance of `c10_rescore_resets_notified` on a one-row store
whose single row is already notified. -/
theorem c10_witness :
    (UniqueKeys dbOne ∧ rowOld ∈ dbOne ∧ keyOf rowOld = (7, iid1) ∧
      rowOld.notified = true) ∧
    (iid1 ∉ (get_unnotified_items dbItems dbOne 7).map
        (fun p => p.2.item_id) ∧
      (save_user_score dbOne 7 iid1 80 ["x"] reasonNew).filter
          (fun r => sameKey 7 iid1 r) =
        [⟨7, iid1, 80, ["x"], reasonNew, false⟩] ∧
      iid1 ∈ (get_unnotified_items dbItems
        (save_user_score dbOne 7 iid1 80 ["x"] reasonNew) 7).map
        (fun p => p.2.item_id)) :=
  ⟨⟨by decide, by decide, by decide, by decide⟩,
   c10_rescore_resets_notified dbItems dbOne 7 iid1 80 ["x"] reasonNew
     rowOld ⟨"item-1", "New vLLM release"⟩ (by decide) (by decide)
     (by decide) (by decide) (by decide) (by decide)⟩

/-- Claim C7 (amended): after the retry budget is exhausted, only a
rate-limit failure is contained to the single candidate (the `except`
clause in `_llm_judge` catches `RateLimitError`, `score_item` returns
`None` and the poll loop moves on); an exhausted connection, timeout or
server failure propagates out of `score_item` and, with no handler in
`run_poll.main`, aborts the whole poll run. -/
theorem c7_failure_containment (t : ScoringTask) (ts : List ScoringTask)
    (e : ApiError) :
    ((∀ k, t.oracle k = .error .rateLimit) →
      poll_loop (t :: ts) = poll_loop ts) ∧
    ((∀ k, t.oracle k = .error e) → retryable e = true →
      e ≠ .rateLimit → (run_score t).llmCalled = true →
      poll_loop (t :: ts) = .error e) := by
  constructor
  · intro h
    have hj := llm_judge_exhaust_rate_limit t.oracle h
    have hr := score_item_of_judge_none t.item t.emb t.likedAll
      t.dislikedAll t.tracked t.oracle hj
    simp only [poll_loop, run_score]
    rw [hr.2]
  · intro h hrr hne hcall
    have hj := llm_judge_exhaust_fatal t.oracle e h hrr hne
    have hres := score_item_of_judge_error t.item t.emb t.likedAll
      t.dislikedAll t.tracked t.oracle e hj hcall
    simp only [poll_loop, run_score]
    rw [hres]

/-- Closed instance of `c7_failure_containment`: a rate-limited candidate
is skipped and the run continues; a timed-out candidate kills the run. -/
theorem c7_witness :
    poll_loop [taskRate, taskGood] = poll_loop [taskGood] ∧
    poll_loop [taskBad, taskGood] = .error .timeout :=
  ⟨(c7_failure_containment taskRate [taskGood] .timeout).1 (fun _ => rfl),
   (c7_failure_containment taskBad [taskGood] .timeout).2 (fun _ => rfl)
     rfl (by decide) rfl⟩

/-- Claim C7 counterexample: the first candidate exhausts its retries on
timeouts; contrary to the claim, the poll run does not continue — it
aborts with the timeout error, although the remaining candidate alone
would have been scored, accepted and notified. -/
theorem c7_counterexample :
    poll_loop [taskBad, taskGood] = .error .timeout ∧
    poll_loop [taskGood] = .ok [(itemML, goodResult)] :=
  ⟨rfl, rfl⟩

end AiFeed
